import Mathlib

/-!
Shallow embedding of the blog-website test-automation repository's
API-client and test-data-builder layers (`utils/api_client.py`,
`utils/data_builder.py`), together with proofs settling the frozen
claims about them.

JSON request/response bodies are modelled by the inductive `JVal`;
Python dicts become association lists with string keys.  Machine-level
concerns (sockets, the live HTTP transport) are out of scope: the
transport's observable result (status code, parsed body) is passed in
explicitly, exactly where the Python code receives it from the session
object.
-/

namespace BlogClient

/-- JSON-like values: the shape of parsed request/response bodies that
`api_client.py` manipulates.  Python dicts are association lists. -/
inductive JVal where
  | jnull : JVal
  | jbool : Bool → JVal
  | jnum : Int → JVal
  | jstr : String → JVal
  | jarr : List JVal → JVal
  | jobj : List (String × JVal) → JVal

/-- Dict lookup (`d.get(k)` / `k in d`): first entry whose key matches. -/
def jLookup : List (String × JVal) → String → Option JVal
  | [], _ => none
  | (k, v) :: rest, key => if k = key then some v else jLookup rest key

/-- Lowercasing as used by `key.lower()` on the ASCII keyword set:
per-character lowering. -/
def lowerStr (s : String) : String := String.mk (s.data.map Char.toLower)

/-- Decides whether `pat` is a prefix of `s` (over character lists). -/
def charsHavePref : List Char → List Char → Bool
  | [], _ => true
  | _ :: _, [] => false
  | a :: as, b :: bs => a == b && charsHavePref as bs

/-- Decides whether `pat` occurs contiguously inside `s` (Python `pat in s`). -/
def charsHaveSub (pat : List Char) : List Char → Bool
  | [] => charsHavePref pat []
  | c :: rest => charsHavePref pat (c :: rest) || charsHaveSub pat rest

/-- Python substring test `pat in s`. -/
def containsSub (s pat : String) : Bool := charsHaveSub pat.data s.data

/-- The sensitive-keyword list of `BaseAPIClient._mask_sensitive_data`. -/
def sensitiveKeys : List String :=
  ["password", "secret", "token", "accessToken", "refreshToken",
   "key", "credential", "pass", "pwd", "api_key", "apiKey"]

/-- `any(sensitive in key.lower() for sensitive in sensitive_keys)`:
note the source lowercases the key but not the keyword, exactly as here. -/
def isSensitiveKey (key : String) : Bool :=
  sensitiveKeys.any (fun s => containsSub (lowerStr key) s)

/-- The fixed mask string written in place of sensitive values. -/
def maskString : String := "********"

mutual
/-- `BaseAPIClient._mask_sensitive_data`: a non-dict value is returned
unchanged; a dict gets each sensitive-keyed entry replaced by the mask
string and each other entry recursively masked (the recursive call on a
non-dict value is the identity, matching the `elif isinstance(..., dict)`
guard). -/
def maskSensitiveData : JVal → JVal
  | .jobj kvs => .jobj (maskObj kvs)
  | v => v

/-- Entry-wise masking of a dict's association list. -/
def maskObj : List (String × JVal) → List (String × JVal)
  | [] => []
  | (k, v) :: rest =>
      (k, if isSensitiveKey k then JVal.jstr maskString else maskSensitiveData v)
        :: maskObj rest
end

mutual
/-- Two bodies agree except possibly in values stored under sensitive
keys (at the top level or nested anywhere inside sub-dicts). -/
inductive SensEqv : JVal → JVal → Prop where
  | leaf (v : JVal) : SensEqv v v
  | obj {xs ys : List (String × JVal)} : SensEqvList xs ys →
      SensEqv (.jobj xs) (.jobj ys)

/-- Entry-wise version of `SensEqv`: same keys in the same order; values
under a sensitive key may differ arbitrarily, other values are related
recursively. -/
inductive SensEqvList : List (String × JVal) → List (String × JVal) → Prop where
  | nil : SensEqvList [] []
  | consSens {k : String} (v₁ v₂ : JVal) {r₁ r₂ : List (String × JVal)} :
      isSensitiveKey k = true → SensEqvList r₁ r₂ →
      SensEqvList ((k, v₁) :: r₁) ((k, v₂) :: r₂)
  | consOther {k : String} {v₁ v₂ : JVal} {r₁ r₂ : List (String × JVal)} :
      SensEqv v₁ v₂ → SensEqvList r₁ r₂ →
      SensEqvList ((k, v₁) :: r₁) ((k, v₂) :: r₂)
end

/-- `requests.Response.ok`, the transport library's success predicate used
by `BaseAPIClient._request` (`success=response.ok`): true exactly when
`raise_for_status()` would not raise, i.e. when the status code is not a
4xx client error and not a 5xx server error. -/
def responseOk (status : Nat) : Bool := decide (status < 400 ∨ 600 ≤ status)

/-- The envelope built by `BaseAPIClient._request` once the transport
yields a response: status code, parsed body (`data`), and
`success = response.ok`.  The `raw_response` handle is not modelled: it
is an opaque reference back to the transport object. -/
structure APIResponse where
  status_code : Nat
  data : JVal
  success : Bool

/-- `BaseAPIClient._request`'s construction of the envelope from the
transport response's status code and parsed body. -/
def mkAPIResponse (status : Nat) (data : JVal) : APIResponse :=
  { status_code := status, data := data, success := responseOk status }

/-- The mutable per-client transport state the claims are about: the
session cookie jar and the session default headers, both string-keyed
dicts. -/
structure ClientState where
  cookies : List (String × String)
  headers : List (String × String)

/-- Dict assignment `headers[k] = v`: overwrite the existing entry or
append a fresh one. -/
def setHeader : List (String × String) → String → String → List (String × String)
  | [], key, v => [(key, v)]
  | (k, w) :: rest, key, v =>
      if k = key then (key, v) :: rest else (k, w) :: setHeader rest key v

/-- Dict removal `headers.pop(k, None)`: drop the entry for `k` (a no-op
when the key is absent; never raises). -/
def popHeader : List (String × String) → String → List (String × String)
  | [], _ => []
  | (k, w) :: rest, key =>
      if k = key then popHeader rest key else (k, w) :: popHeader rest key

/-- Dict lookup `headers.get(k)`. -/
def getHeader : List (String × String) → String → Option String
  | [], _ => none
  | (k, w) :: rest, key => if k = key then some w else getHeader rest key

/-- `AuthAPI.login`'s token extraction from the login response:
`response.json.get("data", {}).get("accessToken")`, followed by the
truthiness test `if access_token:` (absent, non-string and empty tokens
install nothing).  A non-dict body yields `{}` via the `.json` accessor;
a non-dict `"data"` value is modelled as yielding no token (in Python
that success path is only exercised with dict-shaped login bodies). -/
def extractAccessToken (body : JVal) : Option String :=
  match body with
  | .jobj kvs =>
      match jLookup kvs "data" with
      | some (.jobj inner) =>
          match jLookup inner "accessToken" with
          | some (.jstr t) => if t = "" then none else some t
          | _ => none
      | _ => none
  | _ => none

namespace AuthAPI

/-- State effect of `AuthAPI.login` given the transport's response: on a
`success` envelope whose body carries a truthy `data.accessToken`, the
`Authorization` default header is set to `Bearer <token>`; otherwise the
state is unchanged.  (The envelope itself is returned to the caller
unchanged; cookie-jar updates are performed inside the transport
library, not by this code.) -/
def login (c : ClientState) (resp : APIResponse) : ClientState :=
  if resp.success then
    match extractAccessToken resp.data with
    | some t => { c with headers := setHeader c.headers "Authorization" ("Bearer " ++ t) }
    | none => c
  else c

/-- State effect of `AuthAPI.logout` given the transport's response to
`POST auth/logout`: the `Authorization` header is popped unconditionally
(with default `None`, so no exception when absent), whatever the
envelope says; the envelope is returned unchanged. -/
def logout (c : ClientState) (_resp : APIResponse) : ClientState :=
  { c with headers := popHeader c.headers "Authorization" }

end AuthAPI

/-- `BlogAPIClient.clear_session`: `self.session.cookies.clear()` and a
log line — nothing else; the session headers are not touched. -/
def clear_session (c : ClientState) : ClientState :=
  { c with cookies := [] }

end BlogClient

namespace DataBuilder

open BlogClient

/-- Outputs of the `Faker` generator as consumed by `data_builder.py`
(`fake.paragraph()`, `fake.image_url()`, `fake.sentence(nb_words=6)`).
The claims under proof depend only on the generated values themselves
(emptiness, shape), never on randomness or per-call variation, so the
generator is modelled as an oracle supplying one value per generator
method. -/
structure FakerOracle where
  paragraph : String
  imageUrl : String
  sentence : String

/-- Python `s.rstrip(".")`: drop every trailing dot character. -/
def rstripDots (s : String) : String :=
  String.mk ((s.data.reverse.dropWhile (fun c => c == Char.ofNat 46)).reverse)

/-- Serialization of an optional-string field under Python truthiness:
`if value:` emits the entry only for a set, non-empty string. -/
def optStrField (key : String) : Option String → List (String × JVal)
  | some s => if s = "" then [] else [(key, JVal.jstr s)]
  | none => []

/-- Serialization of an optional-int field under Python truthiness:
`if value:` emits the entry only for a set, non-zero integer. -/
def optIntField (key : String) : Option Int → List (String × JVal)
  | some n => if n = 0 then [] else [(key, JVal.jnum n)]
  | none => []

/-- Serialization of an int-list field under Python truthiness:
`if value:` emits the entry only for a non-empty list. -/
def listIntField (key : String) : List Int → List (String × JVal)
  | [] => []
  | n :: rest => [(key, JVal.jarr ((n :: rest).map JVal.jnum))]

/-- The `BlockData` dataclass of `data_builder.py`. -/
structure BlockData where
  type : String
  content : String
  x : Int
  y : Int
  width : Int
  height : Int
  image_caption : Option String := none
  object_fit : Option String := none

/-- `BlockData.to_dict`: the six required entries, then `imageCaption`
and `objectFit` only when truthy. -/
def BlockData.to_dict (b : BlockData) : List (String × JVal) :=
  [("type", JVal.jstr b.type), ("content", JVal.jstr b.content),
   ("x", JVal.jnum b.x), ("y", JVal.jnum b.y),
   ("width", JVal.jnum b.width), ("height", JVal.jnum b.height)]
  ++ optStrField "imageCaption" b.image_caption
  ++ optStrField "objectFit" b.object_fit

namespace BlockBuilder

/-- `BlockBuilder.__init__`: TEXT type, empty content, position (0,0),
size 12×100. -/
def init : BlockData :=
  { type := "TEXT", content := "", x := 0, y := 0, width := 12, height := 100 }

/-- `BlockBuilder.as_text`. -/
def as_text (b : BlockData) : BlockData := { b with type := "TEXT" }

/-- `BlockBuilder.as_image`. -/
def as_image (b : BlockData) : BlockData := { b with type := "IMAGE" }

/-- `BlockBuilder.as_code`. -/
def as_code (b : BlockData) : BlockData := { b with type := "CODE" }

/-- `BlockBuilder.as_quote`. -/
def as_quote (b : BlockData) : BlockData := { b with type := "QUOTE" }

/-- `BlockBuilder.with_content`. -/
def with_content (c : String) (b : BlockData) : BlockData := { b with content := c }

/-- `BlockBuilder.with_random_text`: `content = fake.paragraph()`. -/
def with_random_text (fk : FakerOracle) (b : BlockData) : BlockData :=
  { b with content := fk.paragraph }

/-- `BlockBuilder.with_random_image_url`: `content = fake.image_url()`. -/
def with_random_image_url (fk : FakerOracle) (b : BlockData) : BlockData :=
  { b with content := fk.imageUrl }

/-- `BlockBuilder.at_position`. -/
def at_position (x y : Int) (b : BlockData) : BlockData := { b with x := x, y := y }

/-- `BlockBuilder.with_size`. -/
def with_size (w h : Int) (b : BlockData) : BlockData :=
  { b with width := w, height := h }

/-- The literal CODE auto-fill snippet of `BlockBuilder.build`. -/
def codeSnippet : String := "print('Hello World')"

/-- The content auto-fill step of `BlockBuilder.build`: when content is
empty (Python falsy), TEXT gets `fake.paragraph()`, IMAGE gets
`fake.image_url()`, CODE gets the fixed snippet — and no other type
(VIDEO, QUOTE) is filled. -/
def finalize (fk : FakerOracle) (b : BlockData) : BlockData :=
  if b.content = "" then
    if b.type = "TEXT" then { b with content := fk.paragraph }
    else if b.type = "IMAGE" then { b with content := fk.imageUrl }
    else if b.type = "CODE" then { b with content := codeSnippet }
    else b
  else b

/-- `BlockBuilder.build`: auto-fill, then `to_dict`. -/
def build (fk : FakerOracle) (b : BlockData) : List (String × JVal) :=
  (finalize fk b).to_dict

end BlockBuilder

/-- The `PostData` dataclass of `data_builder.py`; each block is already
a serialized dict by the time it is appended. -/
structure PostData where
  title : String
  type : String
  author_id : Int
  blocks : List (List (String × JVal)) := []
  community_id : Option Int := none
  original_post_id : Option Int := none
  hashtag_ids : List Int := []
  thumbnail_url : Option String := none

/-- `PostData.to_dict`: the four required entries, then each optional
field only when truthy (`if self.community_id:` etc.). -/
def PostData.to_dict (p : PostData) : List (String × JVal) :=
  [("title", JVal.jstr p.title), ("type", JVal.jstr p.type),
   ("authorId", JVal.jnum p.author_id),
   ("blocks", JVal.jarr (p.blocks.map JVal.jobj))]
  ++ optIntField "communityId" p.community_id
  ++ optIntField "originalPostId" p.original_post_id
  ++ listIntField "hashtagIds" p.hashtag_ids
  ++ optStrField "thumbnailUrl" p.thumbnail_url

namespace PostBuilder

/-- `PostBuilder.__init__`: empty title, PERSONAL type, author 0, no
blocks. -/
def init : PostData := { title := "", type := "PERSONAL", author_id := 0 }

/-- `PostBuilder.with_author`. -/
def with_author (a : Int) (p : PostData) : PostData := { p with author_id := a }

/-- `PostBuilder.with_title`. -/
def with_title (t : String) (p : PostData) : PostData := { p with title := t }

/-- `PostBuilder.with_random_title`:
`fake.sentence(nb_words=6).rstrip(".")`. -/
def with_random_title (fk : FakerOracle) (p : PostData) : PostData :=
  { p with title := rstripDots fk.sentence }

/-- The block produced by one iteration of
`PostBuilder.add_random_text_blocks`:
`BlockBuilder().as_text().with_random_text().at_position(0, block_y).with_size(12, 100).build()`. -/
def randomTextBlock (fk : FakerOracle) (y : Int) : List (String × JVal) :=
  BlockBuilder.build fk
    (BlockBuilder.with_size 12 100
      (BlockBuilder.at_position 0 y
        (BlockBuilder.with_random_text fk (BlockBuilder.as_text BlockBuilder.init))))

/-- `PostBuilder.add_random_text_blocks(count)`: `count` times, append a
random text block at `y = len(blocks) * 100`. -/
def add_random_text_blocks (fk : FakerOracle) : Nat → PostData → PostData
  | 0, p => p
  | n + 1, p =>
      add_random_text_blocks fk n
        { p with blocks := p.blocks ++ [randomTextBlock fk (Int.ofNat p.blocks.length * 100)] }

/-- `PostBuilder.build`: auto-fill an empty title with a random one,
then ensure at least one block by delegating to
`add_random_text_blocks(1)` when the block list is empty. -/
def build (fk : FakerOracle) (p : PostData) : PostData :=
  let p1 := if p.title = "" then { p with title := rstripDots fk.sentence } else p
  if p1.blocks.isEmpty then add_random_text_blocks fk 1 p1 else p1

end PostBuilder

/-- `create_quick_post(author_id, blocks_count)`:
`PostBuilder().with_author(a).with_random_title().add_random_text_blocks(n).build()`. -/
def create_quick_post (fk : FakerOracle) (author_id : Int) (blocks_count : Nat) : PostData :=
  PostBuilder.build fk
    (PostBuilder.add_random_text_blocks fk blocks_count
      (PostBuilder.with_random_title fk
        (PostBuilder.with_author author_id PostBuilder.init)))

/-- A concrete faker oracle with non-empty, shape-appropriate outputs,
used by the closed instance theorems. -/
def fkSample : FakerOracle :=
  { paragraph := "Lorem ipsum dolor sit amet.",
    imageUrl := "https://example.com/image.png",
    sentence := "A quick brown fox jumps over." }

end DataBuilder

namespace BlogClient

mutual
/-- Masking depends only on the non-sensitive part of a body. -/
theorem maskSensitiveData_eqv : ∀ {a b : JVal}, SensEqv a b →
    maskSensitiveData a = maskSensitiveData b
  | _, _, .leaf _ => rfl
  | _, _, .obj h => congrArg JVal.jobj (maskObj_eqv h)

/-- Entry-wise form of `maskSensitiveData_eqv`. -/
theorem maskObj_eqv : ∀ {xs ys : List (String × JVal)}, SensEqvList xs ys →
    maskObj xs = maskObj ys
  | _, _, .nil => rfl
  | _, _, .consSens (k := k) v₁ v₂ hk hr => by
      simp only [maskObj, hk, if_pos]
      exact congrArg _ (maskObj_eqv hr)
  | _, _, .consOther (k := k) hv hr => by
      simp only [maskObj]
      refine congrArg₂ (fun x y => (k, x) :: y) ?_ (maskObj_eqv hr)
      by_cases hk : isSensitiveKey k = true
      · simp [hk]
      · simp only [eq_false_of_ne_true hk, if_neg Bool.false_ne_true,
          Bool.false_eq_true, if_false]
        exact maskSensitiveData_eqv hv
end

/-- Every sensitive-keyed entry of a masked dict carries the mask string. -/
theorem maskObj_sensitive_masked : ∀ (kvs : List (String × JVal)),
    ∀ p ∈ maskObj kvs, isSensitiveKey p.1 = true → p.2 = JVal.jstr maskString
  | [], p, hp, _ => by cases hp
  | (k, v) :: rest, p, hp, hs => by
      rcases (List.mem_cons).1 hp with h | h
      · subst h
        simp only [if_pos hs]
      · exact maskObj_sensitive_masked rest p h hs

theorem getHeader_setHeader (hs : List (String × String)) (k v : String) :
    getHeader (setHeader hs k v) k = some v := by
  induction hs with
  | nil => simp [setHeader, getHeader]
  | cons p rest ih =>
      obtain ⟨k', w⟩ := p
      by_cases h : k' = k
      · simp [setHeader, getHeader, h]
      · simp [setHeader, getHeader, h, ih]

theorem getHeader_popHeader (hs : List (String × String)) (k : String) :
    getHeader (popHeader hs k) k = none := by
  induction hs with
  | nil => simp [popHeader, getHeader]
  | cons p rest ih =>
      obtain ⟨k', w⟩ := p
      by_cases h : k' = k
      · simp [popHeader, h, ih]
      · simp [popHeader, getHeader, h, ih]

theorem popHeader_of_absent (hs : List (String × String)) (k : String)
    (h : getHeader hs k = none) : popHeader hs k = hs := by
  induction hs with
  | nil => rfl
  | cons p rest ih =>
      obtain ⟨k', w⟩ := p
      by_cases hk : k' = k
      · simp [getHeader, hk] at h
      · simp only [getHeader, if_neg hk] at h
        simp [popHeader, hk, ih h]

theorem jLookup_append_none {xs : List (String × JVal)} (ys : List (String × JVal))
    {k : String} (h : jLookup xs k = none) :
    jLookup (xs ++ ys) k = jLookup ys k := by
  induction xs with
  | nil => rfl
  | cons p rest ih =>
      obtain ⟨k', v⟩ := p
      by_cases hk : k' = k
      · simp [jLookup, hk] at h
      · simp only [List.cons_append, jLookup, if_neg hk] at h ⊢
        exact ih h

theorem jLookup_append_some {xs : List (String × JVal)} (ys : List (String × JVal))
    {k : String} {w : JVal} (h : jLookup xs k = some w) :
    jLookup (xs ++ ys) k = some w := by
  induction xs with
  | nil => simp [jLookup] at h
  | cons p rest ih =>
      obtain ⟨k', v⟩ := p
      by_cases hk : k' = k
      · simp only [List.cons_append, jLookup, if_pos hk] at h ⊢
        exact h
      · simp only [List.cons_append, jLookup, if_neg hk] at h ⊢
        exact ih h

theorem jLookup_append_split {xs ys : List (String × JVal)} {k : String} {w : JVal}
    (h : jLookup (xs ++ ys) k = some w) :
    jLookup xs k = some w ∨ jLookup ys k = some w := by
  rcases hx : jLookup xs k with _ | v
  · rw [jLookup_append_none _ hx] at h
    exact Or.inr h
  · rw [jLookup_append_some _ hx] at h
    exact Or.inl h

/-- C1 (amended): the envelope's success flag is computed from the
transport status code alone — two responses with the same status and
different bodies get the same flag — and it is true exactly when the
status code is outside the 4xx/5xx error range (the semantics of
`requests.Response.ok`), not exactly when it is 2xx. -/
theorem request_success_from_status_only (status : Nat) (d₁ d₂ : JVal) :
    (mkAPIResponse status d₁).success = (mkAPIResponse status d₂).success ∧
    ((mkAPIResponse status d₁).success = true ↔ (status < 400 ∨ 600 ≤ status)) := by
  refine ⟨rfl, ?_⟩
  simp [mkAPIResponse, responseOk]

/-- C1 counterexample: a 304 Not Modified transport response yields
`success = true` although 304 is not in the 2xx range, refuting
"success = true iff the status code is in 200-299". -/
theorem request_success_at_304 :
    (mkAPIResponse 304 JVal.jnull).success = true ∧ ¬ (200 ≤ 304 ∧ 304 ≤ 299) :=
  ⟨rfl, by decide⟩

/-- C2 (amended): `clear_session` empties the cookie jar and leaves the
session headers — including any installed `Authorization` bearer
header — unchanged. -/
theorem clear_session_spec (c : ClientState) :
    (clear_session c).cookies = [] ∧ (clear_session c).headers = c.headers :=
  ⟨rfl, rfl⟩

/-- C2 counterexample: on a client with a session cookie and an installed
bearer header, `clear_session` drops the cookie but the `Authorization`
header survives, so the client is not left in the pristine
unauthenticated state. -/
theorem clear_session_keeps_auth_header :
    (clear_session (ClientState.mk [("connect.sid", "abc")]
      [("Authorization", "Bearer tok")])).cookies = [] ∧
    getHeader (clear_session (ClientState.mk [("connect.sid", "abc")]
      [("Authorization", "Bearer tok")])).headers "Authorization" = some "Bearer tok" :=
  ⟨rfl, rfl⟩

/-- C9: `clear_session` is idempotent — a second call leaves exactly the
state of the first call, a state with no cookies. -/
theorem clear_session_idempotent (c : ClientState) :
    clear_session (clear_session c) = clear_session c ∧
    (clear_session c).cookies = [] :=
  ⟨rfl, rfl⟩

/-- C3: `_mask_sensitive_data` writes the fixed mask string over every
sensitive-keyed entry of the logged form (at any dict depth), and its
output is identical on two bodies that differ only in values stored
under sensitive keys — so no secret value influences, or survives
into, the logged form. -/
theorem mask_no_secret_leak :
    (∀ kvs : List (String × JVal), ∀ p ∈ maskObj kvs,
        isSensitiveKey p.1 = true → p.2 = JVal.jstr maskString) ∧
    (∀ a b : JVal, SensEqv a b → maskSensitiveData a = maskSensitiveData b) :=
  ⟨maskObj_sensitive_masked, fun _ _ h => maskSensitiveData_eqv h⟩

/-- C3 witness: two request bodies that differ only in a top-level
`"Password"` secret and in a nested `"PASSWORD"` secret mask to the same
logged form, in which both secrets read `"********"` while the
non-sensitive nested field is kept. -/
theorem mask_no_secret_leak_w :
    maskSensitiveData (JVal.jobj [("Password", JVal.jstr "hunter2"),
      ("profile", JVal.jobj [("PASSWORD", JVal.jstr "s3cret"), ("name", JVal.jstr "bob")])]) =
    maskSensitiveData (JVal.jobj [("Password", JVal.jstr "letmein"),
      ("profile", JVal.jobj [("PASSWORD", JVal.jstr "other"), ("name", JVal.jstr "bob")])]) ∧
    maskSensitiveData (JVal.jobj [("Password", JVal.jstr "hunter2"),
      ("profile", JVal.jobj [("PASSWORD", JVal.jstr "s3cret"), ("name", JVal.jstr "bob")])]) =
    JVal.jobj [("Password", JVal.jstr "********"),
      ("profile", JVal.jobj [("PASSWORD", JVal.jstr "********"), ("name", JVal.jstr "bob")])] := by
  constructor
  · exact mask_no_secret_leak.2 _ _ (SensEqv.obj (SensEqvList.consSens _ _ (by decide)
      (SensEqvList.consOther (SensEqv.obj (SensEqvList.consSens _ _ (by decide)
        (SensEqvList.consOther (SensEqv.leaf _) SensEqvList.nil))) SensEqvList.nil)))
  · rfl

/-- C4: when `Auth.login` gets back a success envelope carrying a truthy
`data.accessToken`, the client's default headers afterwards contain
`Authorization: Bearer <token>`; after `Auth.logout` the `Authorization`
entry is gone. -/
theorem login_logout_cycle (c : ClientState) (resp lresp : APIResponse) (t : String)
    (hs : resp.success = true) (ht : extractAccessToken resp.data = some t) :
    getHeader (AuthAPI.login c resp).headers "Authorization" = some ("Bearer " ++ t) ∧
    getHeader (AuthAPI.logout (AuthAPI.login c resp) lresp).headers "Authorization" = none := by
  constructor
  · simp only [AuthAPI.login, hs, if_true, ht]
    exact getHeader_setHeader c.headers "Authorization" ("Bearer " ++ t)
  · exact getHeader_popHeader _ _

/-- C4 witness: a concrete 200 login envelope with body
`{data: {accessToken: "tok123"}}` installs `Bearer tok123`, and a
subsequent logout removes the header. -/
theorem login_logout_cycle_w :
    (mkAPIResponse 200 (JVal.jobj [("data",
        JVal.jobj [("accessToken", JVal.jstr "tok123")])])).success = true ∧
    extractAccessToken (mkAPIResponse 200 (JVal.jobj [("data",
        JVal.jobj [("accessToken", JVal.jstr "tok123")])])).data = some "tok123" ∧
    getHeader (AuthAPI.login (ClientState.mk [] []) (mkAPIResponse 200 (JVal.jobj [("data",
        JVal.jobj [("accessToken", JVal.jstr "tok123")])]))).headers "Authorization" =
      some ("Bearer " ++ "tok123") ∧
    getHeader (AuthAPI.logout (AuthAPI.login (ClientState.mk [] [])
        (mkAPIResponse 200 (JVal.jobj [("data", JVal.jobj [("accessToken", JVal.jstr "tok123")])])))
        (mkAPIResponse 200 (JVal.jobj [("data", JVal.jobj [("accessToken", JVal.jstr "tok123")])]))).headers
      "Authorization" = none :=
  ⟨rfl, rfl,
   (login_logout_cycle (ClientState.mk [] [])
     (mkAPIResponse 200 (JVal.jobj [("data", JVal.jobj [("accessToken", JVal.jstr "tok123")])]))
     (mkAPIResponse 200 (JVal.jobj [("data", JVal.jobj [("accessToken", JVal.jstr "tok123")])]))
     "tok123" rfl rfl).1,
   (login_logout_cycle (ClientState.mk [] [])
     (mkAPIResponse 200 (JVal.jobj [("data", JVal.jobj [("accessToken", JVal.jstr "tok123")])]))
     (mkAPIResponse 200 (JVal.jobj [("data", JVal.jobj [("accessToken", JVal.jstr "tok123")])]))
     "tok123" rfl rfl).2⟩

/-- C10: `Auth.logout` pops the `Authorization` header whatever the
transport envelope says — also on a failure envelope — and when no
header was installed it is a no-op rather than an error. -/
theorem logout_header_removal_unconditional (c : ClientState) (resp : APIResponse) :
    getHeader (AuthAPI.logout c resp).headers "Authorization" = none ∧
    (resp.success = false →
      getHeader (AuthAPI.logout c resp).headers "Authorization" = none) ∧
    (getHeader c.headers "Authorization" = none → AuthAPI.logout c resp = c) := by
  refine ⟨getHeader_popHeader _ _, fun _ => getHeader_popHeader _ _, fun h => ?_⟩
  simp [AuthAPI.logout, popHeader_of_absent _ _ h]

/-- C10 witness: logout on a 500 failure envelope still removes an
installed bearer header, and logout with no installed header leaves the
state untouched. -/
theorem logout_header_removal_unconditional_w :
    (mkAPIResponse 500 JVal.jnull).success = false ∧
    getHeader (AuthAPI.logout (ClientState.mk [] [("Authorization", "Bearer t")])
      (mkAPIResponse 500 JVal.jnull)).headers "Authorization" = none ∧
    AuthAPI.logout (ClientState.mk [] []) (mkAPIResponse 500 JVal.jnull) =
      ClientState.mk [] [] :=
  ⟨rfl,
   (logout_header_removal_unconditional (ClientState.mk [] [("Authorization", "Bearer t")])
     (mkAPIResponse 500 JVal.jnull)).2.1 rfl,
   (logout_header_removal_unconditional (ClientState.mk [] [])
     (mkAPIResponse 500 JVal.jnull)).2.2 rfl⟩

end BlogClient

namespace DataBuilder

open BlogClient

theorem to_dict_content (x : BlockData) :
    jLookup x.to_dict "content" = some (JVal.jstr x.content) := rfl

theorem to_dict_type (x : BlockData) :
    jLookup x.to_dict "type" = some (JVal.jstr x.type) := rfl

theorem optIntField_foreign {k k' : String} (h : k ≠ k') (v : Option Int) :
    jLookup (optIntField k v) k' = none := by
  cases v with
  | none => rfl
  | some n =>
      by_cases hn : n = 0
      · simp [optIntField, hn, jLookup]
      · simp [optIntField, hn, jLookup, h]

theorem optStrField_foreign {k k' : String} (h : k ≠ k') (v : Option String) :
    jLookup (optStrField k v) k' = none := by
  cases v with
  | none => rfl
  | some s =>
      by_cases hs : s = ""
      · simp [optStrField, hs, jLookup]
      · simp [optStrField, hs, jLookup, h]

theorem listIntField_foreign {k k' : String} (h : k ≠ k') (v : List Int) :
    jLookup (listIntField k v) k' = none := by
  cases v with
  | nil => rfl
  | cons n rest => simp [listIntField, jLookup, h]

theorem optIntField_some {k k' : String} {v : Option Int} {w : JVal}
    (h : jLookup (optIntField k v) k' = some w) :
    v ≠ none ∧ ∃ n : Int, w = JVal.jnum n := by
  cases v with
  | none => simp [optIntField, jLookup] at h
  | some n =>
      by_cases hn : n = 0
      · simp [optIntField, hn, jLookup] at h
      · refine ⟨by simp, ?_⟩
        by_cases hk : k = k'
        · simp [optIntField, hn, jLookup, hk] at h
          exact ⟨n, h.symm⟩
        · simp [optIntField, hn, jLookup, hk] at h

theorem optStrField_some {k k' : String} {v : Option String} {w : JVal}
    (h : jLookup (optStrField k v) k' = some w) :
    v ≠ none ∧ ∃ s : String, w = JVal.jstr s := by
  cases v with
  | none => simp [optStrField, jLookup] at h
  | some s =>
      by_cases hs : s = ""
      · simp [optStrField, hs, jLookup] at h
      · refine ⟨by simp, ?_⟩
        by_cases hk : k = k'
        · simp [optStrField, hs, jLookup, hk] at h
          exact ⟨s, h.symm⟩
        · simp [optStrField, hs, jLookup, hk] at h

theorem listIntField_some {k k' : String} {v : List Int} {w : JVal}
    (h : jLookup (listIntField k v) k' = some w) :
    v ≠ [] ∧ ∃ l : List JVal, w = JVal.jarr l := by
  cases v with
  | nil => simp [listIntField, jLookup] at h
  | cons n rest =>
      refine ⟨by simp, ?_⟩
      by_cases hk : k = k'
      · simp [listIntField, jLookup, hk] at h
        exact ⟨_, h.symm⟩
      · simp [listIntField, jLookup, hk] at h

/-- C5 (amended): when the block content is empty at build time, TEXT
gets the faker paragraph, IMAGE the faker image URL, CODE the fixed
non-empty snippet — while QUOTE and VIDEO blocks are left with empty
content (no auto-fill branch exists for them). -/
theorem block_build_autofill (fk : FakerOracle) (b : BlockData) (hc : b.content = "") :
    (b.type = "TEXT" →
      jLookup (BlockBuilder.build fk b) "content" = some (JVal.jstr fk.paragraph)) ∧
    (b.type = "IMAGE" →
      jLookup (BlockBuilder.build fk b) "content" = some (JVal.jstr fk.imageUrl)) ∧
    (b.type = "CODE" →
      jLookup (BlockBuilder.build fk b) "content" = some (JVal.jstr BlockBuilder.codeSnippet) ∧
      BlockBuilder.codeSnippet ≠ "") ∧
    ((b.type = "QUOTE" ∨ b.type = "VIDEO") →
      jLookup (BlockBuilder.build fk b) "content" = some (JVal.jstr "")) := by
  refine ⟨fun h => ?_, fun h => ?_, fun h => ⟨?_, by decide⟩, fun h => ?_⟩
  · simp [BlockBuilder.build, BlockBuilder.finalize, hc, h, to_dict_content]
  · simp [BlockBuilder.build, BlockBuilder.finalize, hc, h, to_dict_content]
  · simp [BlockBuilder.build, BlockBuilder.finalize, hc, ‹b.type = "CODE"›, to_dict_content]
  · rcases h with h | h <;>
      simp [BlockBuilder.build, BlockBuilder.finalize, hc, h, to_dict_content]

/-- C5 witness: an empty TEXT block builds with the (non-empty) faker
paragraph as content. -/
theorem block_build_autofill_w :
    BlockBuilder.init.content = "" ∧
    jLookup (BlockBuilder.build fkSample BlockBuilder.init) "content" =
      some (JVal.jstr fkSample.paragraph) :=
  ⟨rfl, (block_build_autofill fkSample BlockBuilder.init rfl).1 rfl⟩

/-- C5 counterexample: a QUOTE block with empty content builds with
content still empty (while the faker oracle's outputs are non-empty),
refuting "every block type gets non-empty auto-generated content". -/
theorem block_build_quote_stays_empty :
    jLookup (BlockBuilder.build fkSample (BlockBuilder.as_quote BlockBuilder.init)) "content" =
      some (JVal.jstr "") ∧
    fkSample.paragraph ≠ "" ∧ fkSample.imageUrl ≠ "" :=
  ⟨rfl, by decide, by decide⟩

/-- C6: a serialized post always carries `title`, `type`, `authorId` and
`blocks`; each optional key appears only when the corresponding field is
set, an unset optional field is absent (never mapped to null), and no
optional key is ever mapped to null. -/
theorem post_to_dict_fields (p : PostData) :
    jLookup p.to_dict "title" = some (JVal.jstr p.title) ∧
    jLookup p.to_dict "type" = some (JVal.jstr p.type) ∧
    jLookup p.to_dict "authorId" = some (JVal.jnum p.author_id) ∧
    jLookup p.to_dict "blocks" = some (JVal.jarr (p.blocks.map JVal.jobj)) ∧
    (p.community_id = none → jLookup p.to_dict "communityId" = none) ∧
    (∀ w, jLookup p.to_dict "communityId" = some w →
      p.community_id ≠ none ∧ w ≠ JVal.jnull) ∧
    (p.original_post_id = none → jLookup p.to_dict "originalPostId" = none) ∧
    (∀ w, jLookup p.to_dict "originalPostId" = some w →
      p.original_post_id ≠ none ∧ w ≠ JVal.jnull) ∧
    (p.hashtag_ids = [] → jLookup p.to_dict "hashtagIds" = none) ∧
    (∀ w, jLookup p.to_dict "hashtagIds" = some w →
      p.hashtag_ids ≠ [] ∧ w ≠ JVal.jnull) ∧
    (p.thumbnail_url = none → jLookup p.to_dict "thumbnailUrl" = none) ∧
    (∀ w, jLookup p.to_dict "thumbnailUrl" = some w →
      p.thumbnail_url ≠ none ∧ w ≠ JVal.jnull) := by
  have hsplit : ∀ (key : String) (w : JVal), jLookup p.to_dict key = some w →
      jLookup [("title", JVal.jstr p.title), ("type", JVal.jstr p.type),
        ("authorId", JVal.jnum p.author_id),
        ("blocks", JVal.jarr (p.blocks.map JVal.jobj))] key = some w ∨
      jLookup (optIntField "communityId" p.community_id) key = some w ∨
      jLookup (optIntField "originalPostId" p.original_post_id) key = some w ∨
      jLookup (listIntField "hashtagIds" p.hashtag_ids) key = some w ∨
      jLookup (optStrField "thumbnailUrl" p.thumbnail_url) key = some w := by
    intro key w hw
    unfold PostData.to_dict at hw
    rcases jLookup_append_split hw with h' | h'
    · rcases jLookup_append_split h' with h'' | h''
      · rcases jLookup_append_split h'' with h3 | h3
        · rcases jLookup_append_split h3 with h4 | h4
          · exact Or.inl h4
          · exact Or.inr (Or.inl h4)
        · exact Or.inr (Or.inr (Or.inl h3))
      · exact Or.inr (Or.inr (Or.inr (Or.inl h'')))
    · exact Or.inr (Or.inr (Or.inr (Or.inr h')))
  have hhead : ∀ key : String, key ≠ "title" → key ≠ "type" → key ≠ "authorId" →
      key ≠ "blocks" →
      jLookup [("title", JVal.jstr p.title), ("type", JVal.jstr p.type),
        ("authorId", JVal.jnum p.author_id),
        ("blocks", JVal.jarr (p.blocks.map JVal.jobj))] key = none := by
    intro key h1 h2 h3 h4
    simp [jLookup, Ne.symm h1, Ne.symm h2, Ne.symm h3, Ne.symm h4]
  have hnone : ∀ key : String,
      jLookup [("title", JVal.jstr p.title), ("type", JVal.jstr p.type),
        ("authorId", JVal.jnum p.author_id),
        ("blocks", JVal.jarr (p.blocks.map JVal.jobj))] key = none →
      jLookup (optIntField "communityId" p.community_id) key = none →
      jLookup (optIntField "originalPostId" p.original_post_id) key = none →
      jLookup (listIntField "hashtagIds" p.hashtag_ids) key = none →
      jLookup (optStrField "thumbnailUrl" p.thumbnail_url) key = none →
      jLookup p.to_dict key = none := by
    intro key h0 h1 h2 h3 h4
    have a1 : jLookup ([("title", JVal.jstr p.title), ("type", JVal.jstr p.type),
        ("authorId", JVal.jnum p.author_id),
        ("blocks", JVal.jarr (p.blocks.map JVal.jobj))] ++
        optIntField "communityId" p.community_id) key = none := by
      rw [jLookup_append_none _ h0]
      exact h1
    have a2 : jLookup (([("title", JVal.jstr p.title), ("type", JVal.jstr p.type),
        ("authorId", JVal.jnum p.author_id),
        ("blocks", JVal.jarr (p.blocks.map JVal.jobj))] ++
        optIntField "communityId" p.community_id) ++
        optIntField "originalPostId" p.original_post_id) key = none := by
      rw [jLookup_append_none _ a1]
      exact h2
    have a3 : jLookup ((([("title", JVal.jstr p.title), ("type", JVal.jstr p.type),
        ("authorId", JVal.jnum p.author_id),
        ("blocks", JVal.jarr (p.blocks.map JVal.jobj))] ++
        optIntField "communityId" p.community_id) ++
        optIntField "originalPostId" p.original_post_id) ++
        listIntField "hashtagIds" p.hashtag_ids) key = none := by
      rw [jLookup_append_none _ a2]
      exact h3
    unfold PostData.to_dict
    rw [jLookup_append_none _ a3]
    exact h4
  refine ⟨rfl, rfl, rfl, rfl, ?_, ?_, ?_, ?_, ?_, ?_, ?_, ?_⟩
  · intro h
    refine hnone _ (hhead _ (by decide) (by decide) (by decide) (by decide)) (by rw [h]; rfl)
      (optIntField_foreign (by decide) _) (listIntField_foreign (by decide) _)
      (optStrField_foreign (by decide) _)
  · intro w hw
    rcases hsplit _ _ hw with h | h | h | h | h
    · rw [hhead _ (by decide) (by decide) (by decide) (by decide)] at h
      cases h
    · obtain ⟨hne, n, hn⟩ := optIntField_some h
      subst hn
      exact ⟨hne, by simp⟩
    · rw [optIntField_foreign (by decide) _] at h
      cases h
    · rw [listIntField_foreign (by decide) _] at h
      cases h
    · rw [optStrField_foreign (by decide) _] at h
      cases h
  · intro h
    refine hnone _ (hhead _ (by decide) (by decide) (by decide) (by decide))
      (optIntField_foreign (by decide) _) (by rw [h]; rfl)
      (listIntField_foreign (by decide) _) (optStrField_foreign (by decide) _)
  · intro w hw
    rcases hsplit _ _ hw with h | h | h | h | h
    · rw [hhead _ (by decide) (by decide) (by decide) (by decide)] at h
      cases h
    · rw [optIntField_foreign (by decide) _] at h
      cases h
    · obtain ⟨hne, n, hn⟩ := optIntField_some h
      subst hn
      exact ⟨hne, by simp⟩
    · rw [listIntField_foreign (by decide) _] at h
      cases h
    · rw [optStrField_foreign (by decide) _] at h
      cases h
  · intro h
    refine hnone _ (hhead _ (by decide) (by decide) (by decide) (by decide))
      (optIntField_foreign (by decide) _) (optIntField_foreign (by decide) _)
      (by rw [h]; rfl) (optStrField_foreign (by decide) _)
  · intro w hw
    rcases hsplit _ _ hw with h | h | h | h | h
    · rw [hhead _ (by decide) (by decide) (by decide) (by decide)] at h
      cases h
    · rw [optIntField_foreign (by decide) _] at h
      cases h
    · rw [optIntField_foreign (by decide) _] at h
      cases h
    · obtain ⟨hne, l, hl⟩ := listIntField_some h
      subst hl
      exact ⟨hne, by simp⟩
    · rw [optStrField_foreign (by decide) _] at h
      cases h
  · intro h
    refine hnone _ (hhead _ (by decide) (by decide) (by decide) (by decide))
      (optIntField_foreign (by decide) _) (optIntField_foreign (by decide) _)
      (listIntField_foreign (by decide) _) (by rw [h]; rfl)
  · intro w hw
    rcases hsplit _ _ hw with h | h | h | h | h
    · rw [hhead _ (by decide) (by decide) (by decide) (by decide)] at h
      cases h
    · rw [optIntField_foreign (by decide) _] at h
      cases h
    · rw [optIntField_foreign (by decide) _] at h
      cases h
    · rw [listIntField_foreign (by decide) _] at h
      cases h
    · obtain ⟨hne, s, hs⟩ := optStrField_some h
      subst hs
      exact ⟨hne, by simp⟩

/-- C6 witness: an all-unset post serializes with the required keys and
without any of the optional keys. -/
theorem post_to_dict_fields_w :
    jLookup (PostData.mk "T" "PERSONAL" 7 [] none none [] none).to_dict "title" =
      some (JVal.jstr "T") ∧
    jLookup (PostData.mk "T" "PERSONAL" 7 [] none none [] none).to_dict "communityId" = none ∧
    jLookup (PostData.mk "T" "PERSONAL" 7 [] none none [] none).to_dict "thumbnailUrl" = none :=
  ⟨(post_to_dict_fields (PostData.mk "T" "PERSONAL" 7 [] none none [] none)).1,
   (post_to_dict_fields (PostData.mk "T" "PERSONAL" 7 [] none none [] none)).2.2.2.2.1 rfl,
   (post_to_dict_fields (PostData.mk "T" "PERSONAL" 7 [] none none [] none)).2.2.2.2.2.2.2.2.2.2.1 rfl⟩

theorem art_blocks_length (fk : FakerOracle) (n : Nat) (p : PostData) :
    (PostBuilder.add_random_text_blocks fk n p).blocks.length = p.blocks.length + n := by
  induction n generalizing p with
  | zero => rfl
  | succ m ih =>
      rw [PostBuilder.add_random_text_blocks, ih]
      simp
      omega

theorem art_preserves_meta (fk : FakerOracle) (n : Nat) (p : PostData) :
    (PostBuilder.add_random_text_blocks fk n p).author_id = p.author_id ∧
    (PostBuilder.add_random_text_blocks fk n p).title = p.title := by
  induction n generalizing p with
  | zero => exact ⟨rfl, rfl⟩
  | succ m ih =>
      rw [PostBuilder.add_random_text_blocks]
      exact ih _

theorem art_mem (fk : FakerOracle) (n : Nat) (p : PostData) :
    ∀ blk ∈ (PostBuilder.add_random_text_blocks fk n p).blocks,
      blk ∈ p.blocks ∨ ∃ y : Int, blk = PostBuilder.randomTextBlock fk y := by
  induction n generalizing p with
  | zero => exact fun blk h => Or.inl h
  | succ m ih =>
      intro blk h
      rw [PostBuilder.add_random_text_blocks] at h
      rcases ih _ blk h with h' | h'
      · rcases List.mem_append.1 h' with h'' | h''
        · exact Or.inl h''
        · exact Or.inr ⟨_, List.mem_singleton.1 h''⟩
      · exact Or.inr h'

theorem randomTextBlock_type (fk : FakerOracle) (y : Int) :
    jLookup (PostBuilder.randomTextBlock fk y) "type" = some (JVal.jstr "TEXT") := by
  by_cases h : fk.paragraph = "" <;>
    simp [PostBuilder.randomTextBlock, BlockBuilder.build, BlockBuilder.finalize,
      BlockBuilder.with_size, BlockBuilder.at_position, BlockBuilder.with_random_text,
      BlockBuilder.as_text, BlockBuilder.init, h, to_dict_type]

/-- Specialization of `PostBuilder.build` when the title is already
non-empty: only the ensure-at-least-one-block step remains. -/
theorem build_of_title_ne (fk : FakerOracle) (p : PostData) (hti : p.title ≠ "") :
    PostBuilder.build fk p =
      if p.blocks.isEmpty then PostBuilder.add_random_text_blocks fk 1 p else p := by
  unfold PostBuilder.build
  simp only [if_neg hti]

/-- C8: whatever configuration state a PostBuilder has reached, the post
returned by `build()` has a non-empty block list; when no block was
added, `build()` appends exactly one generated text block. -/
theorem post_build_blocks_nonempty (fk : FakerOracle) (p : PostData) :
    (PostBuilder.build fk p).blocks ≠ [] ∧
    (p.blocks = [] → (PostBuilder.build fk p).blocks.length = 1) := by
  unfold PostBuilder.build
  have hqb : (if p.title = "" then { p with title := rstripDots fk.sentence } else p).blocks
      = p.blocks := by
    split <;> rfl
  generalize hQ : (if p.title = "" then
      { p with title := rstripDots fk.sentence } else p : PostData) = q
  rw [hQ] at hqb
  rcases hbq : q.blocks with _ | ⟨b, bs⟩
  · simp only [hbq, List.isEmpty_nil, if_true]
    have hlen1 := art_blocks_length fk 1 q
    rw [hbq] at hlen1
    simp only [List.length_nil, Nat.zero_add] at hlen1
    constructor
    · intro hcon
      rw [hcon] at hlen1
      cases hlen1
    · intro _
      exact hlen1
  · simp only [hbq, List.isEmpty_cons, Bool.false_eq_true, if_false]
    constructor
    · intro hcon
      exact List.cons_ne_nil b bs hcon
    · intro hpnil
      exact absurd (hbq.symm.trans (hqb.trans hpnil)) (List.cons_ne_nil b bs)

/-- C8 witness: building from the pristine builder state yields exactly
one block. -/
theorem post_build_blocks_nonempty_w :
    (PostBuilder.build fkSample PostBuilder.init).blocks ≠ [] ∧
    (PostBuilder.build fkSample PostBuilder.init).blocks.length = 1 :=
  ⟨(post_build_blocks_nonempty fkSample PostBuilder.init).1,
   (post_build_blocks_nonempty fkSample PostBuilder.init).2 rfl⟩

/-- C7 (amended): `create_quick_post(author_id, N)` keeps the given
author id, carries the non-empty stripped random title, serializes every
block with type TEXT, and its block list has exactly N entries for
N ≥ 1 — but for N = 0 the final `build()` self-heals the empty list to
one block instead of zero. -/
theorem create_quick_post_spec (fk : FakerOracle) (a : Int) (n : Nat)
    (ht : rstripDots fk.sentence ≠ "") :
    (create_quick_post fk a n).author_id = a ∧
    (create_quick_post fk a n).title = rstripDots fk.sentence ∧
    (create_quick_post fk a n).blocks.length = (if n = 0 then 1 else n) ∧
    ∀ blk ∈ (create_quick_post fk a n).blocks,
      jLookup blk "type" = some (JVal.jstr "TEXT") := by
  have hP0a : (PostBuilder.with_random_title fk
      (PostBuilder.with_author a PostBuilder.init)).author_id = a := rfl
  have hP0t : (PostBuilder.with_random_title fk
      (PostBuilder.with_author a PostBuilder.init)).title = rstripDots fk.sentence := rfl
  have hP0b : (PostBuilder.with_random_title fk
      (PostBuilder.with_author a PostBuilder.init)).blocks = [] := rfl
  unfold create_quick_post
  generalize hP : PostBuilder.with_random_title fk
      (PostBuilder.with_author a PostBuilder.init) = P0
  rw [hP] at hP0a hP0t hP0b
  have hA := art_preserves_meta fk n P0
  have hlenA := art_blocks_length fk n P0
  have hmemA := art_mem fk n P0
  generalize hQ : PostBuilder.add_random_text_blocks fk n P0 = A
  rw [hQ] at hA hlenA hmemA
  have htine : A.title ≠ "" := by
    rw [hA.2, hP0t]
    exact ht
  rw [build_of_title_ne fk A htine]
  cases n with
  | zero =>
      have hAb : A.blocks = [] := by
        rw [hP0b] at hlenA
        exact List.length_eq_zero.1 hlenA
      simp only [hAb, List.isEmpty_nil, if_true]
      have hm1 := art_preserves_meta fk 1 A
      have hl1 := art_blocks_length fk 1 A
      refine ⟨hm1.1.trans (hA.1.trans hP0a), hm1.2.trans (hA.2.trans hP0t), ?_, ?_⟩
      · rw [hl1, hAb]
        rfl
      · intro blk hblk
        rcases art_mem fk 1 A blk hblk with h | ⟨y, hy⟩
        · rw [hAb] at h
          cases h
        · rw [hy]
          exact randomTextBlock_type fk y
  | succ m =>
      have hne : A.blocks ≠ [] := by
        intro hcon
        rw [hcon, hP0b] at hlenA
        cases hlenA
      have hfalse : A.blocks.isEmpty = false := by
        rcases hbb : A.blocks with _ | ⟨b, bs⟩
        · exact absurd hbb hne
        · rfl
      simp only [hfalse, Bool.false_eq_true, if_false]
      refine ⟨hA.1.trans hP0a, hA.2.trans hP0t, ?_, ?_⟩
      · rw [hlenA, hP0b]
        simp
      · intro blk hblk
        rcases hmemA blk hblk with h | ⟨y, hy⟩
        · rw [hP0b] at h
          cases h
        · rw [hy]
          exact randomTextBlock_type fk y

/-- C7 witness: two requested blocks give exactly two TEXT blocks and
the requested author id. -/
theorem create_quick_post_spec_w :
    rstripDots fkSample.sentence ≠ "" ∧
    (create_quick_post fkSample 7 2).author_id = 7 ∧
    (create_quick_post fkSample 7 2).blocks.length = 2 := by
  refine ⟨by decide, (create_quick_post_spec fkSample 7 2 (by decide)).1, ?_⟩
  have h := (create_quick_post_spec fkSample 7 2 (by decide)).2.2.1
  simpa using h

/-- C7 counterexample: with `blocks_count = 0` the returned post has one
block, not zero — `build()`'s self-healing refutes "exactly N entries
for every non-negative N". -/
theorem create_quick_post_zero_blocks :
    (create_quick_post fkSample 7 0).blocks.length = 1 ∧
    (create_quick_post fkSample 7 0).blocks.length ≠ 0 := by
  constructor
  · rfl
  · intro h
    rw [show (create_quick_post fkSample 7 0).blocks.length = 1 from rfl] at h
    cases h

end DataBuilder
